import Mathlib

/-!
Verification development for the open62541 Rust binding core:
the transparent-wrapper contract (`DataType` in src/lib.rs), the
primitive wrapper generator (`primitive!` in src/ua/data_types.rs),
and the ownership-transfer container (`ServerConfig` in
src/ua/server_config.rs).

Machine values are embedded at the bit level: a host primitive value is
its bit pattern, a natural number below `2 ^ width`.  The transparent
construction (`from_ref`) and the view accessor (`as_ref`) are pure bit
copies in the source, so they are identities on bit patterns here.
-/

/-- Names of the entries of the primitive table in `primitive!`
(src/ua/data_types.rs, lines 69-81). -/
inductive PrimName
  | Boolean
  | SByte
  | Byte
  | Int16
  | UInt16
  | Int32
  | UInt32
  | Int64
  | UInt64
  | Float
  | Double
deriving DecidableEq, Repr

/-- The fixed table of (name, host type) pairs passed to the `primitive!`
macro, in source order.  Each entry expands to exactly one `data_type!`
invocation (one wrapper type) and one constructor impl. -/
def primitiveTable : List PrimName :=
  [PrimName.Boolean, PrimName.SByte, PrimName.Byte, PrimName.Int16,
   PrimName.UInt16, PrimName.Int32, PrimName.UInt32, PrimName.Int64,
   PrimName.UInt64, PrimName.Float, PrimName.Double]

/-- Bit width of the host primitive type paired with each table entry
(bool, i8 and u8 are one byte; f32 and f64 are 32 and 64 bits). -/
def hostWidth : PrimName → Nat
  | PrimName.Boolean => 8
  | PrimName.SByte => 8
  | PrimName.Byte => 8
  | PrimName.Int16 => 16
  | PrimName.UInt16 => 16
  | PrimName.Int32 => 32
  | PrimName.UInt32 => 32
  | PrimName.Int64 => 64
  | PrimName.UInt64 => 64
  | PrimName.Float => 32
  | PrimName.Double => 64

/-- The wrapper type generated for a primitive table entry.  The Rust
wrapper is `#[repr(transparent)]` around the native scalar, so its memory
is exactly the bit pattern of one host value of the matching width. -/
structure Primitive (t : PrimName) where
  bits : Nat
  bits_lt : bits < 2 ^ hostWidth t

/-- Modelled from the spec: `from_ref` comes from the `data_type!` macro,
which is not under src/.  The spec describes the constructor as "a
by-reference transparent construction (no allocation; a pure bit copy)",
so it is the identity on the bit pattern of the host value. -/
def Primitive.from_ref (t : PrimName) (v : Nat) (h : v < 2 ^ hostWidth t) :
    Primitive t :=
  ⟨v, h⟩

/-- The generated constructor `pub fn new(value: $type) -> Self` of the
`primitive!` macro (src/ua/data_types.rs, lines 60-63): it forwards to
`Self::from_ref(&value)`. -/
def Primitive.new (t : PrimName) (v : Nat) (h : v < 2 ^ hostWidth t) :
    Primitive t :=
  Primitive.from_ref t v h

/-- The view accessor `DataType::as_ref` (src/lib.rs, lines 29-35): it
reinterprets the wrapper reference as a reference to the inner native
value via a pointer cast, reading back the very same bits. -/
def Primitive.as_ref (t : PrimName) (w : Primitive t) : Nat :=
  w.bits

/-- C1: every entry of the primitive table generates exactly one wrapper
type (the table lists each of the eleven names exactly once), and for
every host bit pattern v of the matching width, including all boundary
patterns (0, minimum, maximum, NaN and Inf encodings for the floating
types), constructing the wrapper with new(v) and reading it back through
as_ref yields v bit-identically. -/
theorem primitive_new_as_ref_roundtrip :
    primitiveTable.Nodup ∧ primitiveTable.length = 11 ∧
    ∀ (t : PrimName) (v : Nat) (h : v < 2 ^ hostWidth t),
      Primitive.as_ref t (Primitive.new t v h) = v := by
  refine ⟨by decide, by decide, ?_⟩
  intro t v h
  rfl

/-- Witness for C1: the spec's concrete scenario, a 16-bit signed value
-1 (bit pattern 0xFFFF), round-trips bit-identically. -/
theorem primitive_new_as_ref_roundtrip_witness :
    (65535 : Nat) < 2 ^ hostWidth PrimName.Int16 ∧
    Primitive.as_ref PrimName.Int16
      (Primitive.new PrimName.Int16 65535 (by decide)) = 65535 :=
  ⟨by decide,
   primitive_new_as_ref_roundtrip.2.2 PrimName.Int16 65535 (by decide)⟩

/-!
Ownership-transfer container: `ServerConfig` (src/ua/server_config.rs).
The native `UA_ServerConfig` structure is abstracted to the fields the
core touches: the `logging` pointer (0 means null) and the derived
network port, plus one sub-structure logger slot into which default
population copies the logger.  Panics are embedded as `Except.error`
carrying the source's panic message; a call of the native cleanup
function is recorded as an element of a call list.
-/

/-- Abstraction of the native `UA_ServerConfig` structure: the logger
pointer (0 is null), the derived network port, and the logger slot of a
sub-structure (such as `eventLoop`) that default population copies the
logger into. -/
structure UA_ServerConfig where
  logging : Nat
  port : Nat
  subLogging : Nat
deriving DecidableEq, Repr

/-- The all-zero-bytes value of the native structure. -/
def UA_ServerConfig.zeroed : UA_ServerConfig :=
  { logging := 0, port := 0, subLogging := 0 }

/-- All modelled bytes of the native structure are zero. -/
def UA_ServerConfig.allZero (c : UA_ServerConfig) : Prop :=
  c.logging = 0 ∧ c.port = 0 ∧ c.subLogging = 0

/-- The container `pub(crate) struct ServerConfig(Option<UA_ServerConfig>)`
(src/ua/server_config.rs, line 7): `some` is the Owned state, `none` is
the Released state. -/
structure ServerConfig where
  inner : Option UA_ServerConfig
deriving DecidableEq, Repr

/-- Native calls the container can make while being dropped. -/
inductive NativeCall
  | clean
deriving DecidableEq, Repr

/-- `ServerConfig::from_raw` (lines 19-21): wrap the value, taking
ownership. -/
def ServerConfig.from_raw (src : UA_ServerConfig) : ServerConfig :=
  ⟨some src⟩

/-- `ServerConfig::into_raw` (lines 31-33): `self.0.take().expect(..)`.
The take leaves the container Released; on a Released container the
expect panics.  The result pairs the returned value with the container
state left behind for the subsequent drop. -/
def ServerConfig.into_raw (c : ServerConfig) :
    Except String (UA_ServerConfig × ServerConfig) :=
  match c.inner with
  | some v => Except.ok (v, ⟨none⟩)
  | none => Except.error "should have server config"

/-- `ServerConfig::init` (lines 39-45): zero-initialize the native value
and take ownership of it via `from_raw`. -/
def ServerConfig.init : ServerConfig :=
  ServerConfig.from_raw UA_ServerConfig.zeroed

/-- `ServerConfig::as_mut` (lines 54-57): `self.0.as_mut().expect(..)`,
an exclusive view of the live value; panics on a Released container. -/
def ServerConfig.as_mut (c : ServerConfig) : Except String UA_ServerConfig :=
  match c.inner with
  | some v => Except.ok v
  | none => Except.error "should have server config"

/-- `ServerConfig::as_mut_ptr` (lines 66-69): same take as `as_mut`, the
reference coerced to a raw pointer. -/
def ServerConfig.as_mut_ptr (c : ServerConfig) : Except String UA_ServerConfig :=
  match c.inner with
  | some v => Except.ok v
  | none => Except.error "should have server config"

/-- `impl Drop for ServerConfig` (lines 72-80): if the container still
holds the value, call `UA_ServerConfig_clean` on it once; otherwise do
nothing.  The result is the list of native cleanup calls made. -/
def ServerConfig.dropCalls (c : ServerConfig) : List NativeCall :=
  match c.inner with
  | some _ => [NativeCall.clean]
  | none => []

/-- C2: for every native value v, `from_raw(v)` followed by `into_raw()`
returns exactly v, the container is left Released, and dropping that
Released container makes no native cleanup call (`UA_ServerConfig_clean`
is not invoked). -/
theorem from_raw_into_raw_roundtrip (v : UA_ServerConfig) :
    ServerConfig.into_raw (ServerConfig.from_raw v) =
      Except.ok (v, ServerConfig.mk none) ∧
    ServerConfig.dropCalls (ServerConfig.mk none) = [] :=
  ⟨rfl, rfl⟩

/-- C3: dropping the container calls the native cleanup function exactly
once if and only if the container is Owned (still holds a value) at drop
time, and dropping a Released container makes no native call at all. -/
theorem drop_cleanup_iff_owned (c : ServerConfig) :
    ((ServerConfig.dropCalls c).count NativeCall.clean = 1 ↔
      c.inner.isSome = true) ∧
    (c.inner = none → ServerConfig.dropCalls c = []) := by
  cases c with
  | mk inner =>
    cases inner with
    | none => exact ⟨by simp [ServerConfig.dropCalls], fun _ => rfl⟩
    | some v => exact ⟨by simp [ServerConfig.dropCalls], by simp⟩

/-- Witness for C3: a Released container is dropped with no cleanup
call, and an Owned container is dropped with exactly one. -/
theorem drop_cleanup_iff_owned_witness :
    ServerConfig.dropCalls (ServerConfig.mk none) = [] ∧
    (ServerConfig.dropCalls ServerConfig.init).count NativeCall.clean = 1 :=
  ⟨(drop_cleanup_iff_owned (ServerConfig.mk none)).2 rfl,
   (drop_cleanup_iff_owned ServerConfig.init).1.mpr (by decide)⟩

/-- C4: calling into_raw, as_mut or as_mut_ptr on a Released container
is fatal: each operation panics (with the message of the source's
expect) instead of returning a value. -/
theorem released_exclusive_ops_panic :
    ServerConfig.into_raw (ServerConfig.mk none) =
      Except.error "should have server config" ∧
    ServerConfig.as_mut (ServerConfig.mk none) =
      Except.error "should have server config" ∧
    ServerConfig.as_mut_ptr (ServerConfig.mk none) =
      Except.error "should have server config" :=
  ⟨rfl, rfl, rfl⟩

/-- C6: init() produces an Owned container holding the all-zero native
value, with no error path (it is a total function returning a container
directly), and dropping the result immediately invokes cleanup at most
once. -/
theorem init_owned_zeroed_drop_once :
    ServerConfig.init.inner = some UA_ServerConfig.zeroed ∧
    UA_ServerConfig.allZero UA_ServerConfig.zeroed ∧
    (ServerConfig.dropCalls ServerConfig.init).count NativeCall.clean ≤ 1 :=
  ⟨rfl, ⟨rfl, rfl, rfl⟩, by decide⟩

/-!
Default configuration assembly: `impl Default for ServerConfig`
(src/ua/server_config.rs, lines 88-115).  The body is embedded as a
trace-producing computation: every step of the source body appends its
event in the order the statements execute.  The native routine
`UA_ServerConfig_setDefault` is kept abstract as a parameter (a function
from the configuration to the updated configuration and a raw status
code, 0 being the good status), with the engine's documented behaviour
supplied as a concrete instance.
-/

/-- Steps of the default-assembly body, in the order they can occur. -/
inductive AssemblyEvent
  | zeroInit
  | assertLoggerUnset
  | assignLogger
  | callSetDefault
deriving DecidableEq, Repr

/-- Modelled from the spec: `crate::logger()` is not under src/.  The
spec describes it as a fresh logger instance whose ownership transfers
into the configuration, so it is a fixed non-null pointer value. -/
def loggerAddr : Nat := 1

/-- The configuration value handed to the native default-population
routine: all bytes zero except the freshly assigned logger pointer. -/
def configBeforeSetDefault : UA_ServerConfig :=
  { UA_ServerConfig.zeroed with logging := loggerAddr }

/-- The body of `impl Default for ServerConfig` (lines 90-114),
parametric in the native routine called at line 109:
zero-init via `init()`, take the exclusive view (`as_mut`, which cannot
panic right after init), `debug_assert!` that the logger field is null,
assign the fresh logger, call the native default-population routine
through `as_mut_ptr`, and panic unless the returned status is good. -/
def ServerConfig.defaultWith
    (native : UA_ServerConfig → UA_ServerConfig × Nat) :
    List AssemblyEvent × Except String ServerConfig :=
  let config := ServerConfig.init
  let trace := [AssemblyEvent.zeroInit]
  match config.inner with
  | none => (trace, Except.error "should have server config")
  | some inner =>
    let trace := trace ++ [AssemblyEvent.assertLoggerUnset]
    if inner.logging ≠ 0 then
      (trace, Except.error "assertion failed: config.logging.is_null()")
    else
      let inner := { inner with logging := loggerAddr }
      let trace := trace ++ [AssemblyEvent.assignLogger]
      let result := native inner
      let trace := trace ++ [AssemblyEvent.callSetDefault]
      if result.2 ≠ 0 then
        (trace, Except.error "should set default server config")
      else
        (trace, Except.ok ⟨some result.1⟩)

/-- Modelled from the spec: the engine's `UA_ServerConfig_setDefault` is
external native code.  Per the spec it derives the fixed default network
port 4840, propagates the logger reference into sub-structures, and
returns the good status code (its only documented failure being memory
exhaustion, represented by the abstract parameter of `defaultWith`). -/
def UA_ServerConfig_setDefault (c : UA_ServerConfig) :
    UA_ServerConfig × Nat :=
  ({ c with port := 4840, subLogging := c.logging }, 0)

/-- `ServerConfig::default` itself: the body applied to the engine's
default-population routine. -/
def ServerConfig.defaultConfig : List AssemblyEvent × Except String ServerConfig :=
  ServerConfig.defaultWith UA_ServerConfig_setDefault

/-- C7: on every execution of default assembly (whatever the native
routine returns), the trace of steps is exactly zero-initialization,
then the assertion that the logger is unset, then the logger assignment,
then the native default-population call; in particular the logger
assignment strictly precedes the native call. -/
theorem default_assembly_order
    (native : UA_ServerConfig → UA_ServerConfig × Nat) :
    (ServerConfig.defaultWith native).1 =
      [AssemblyEvent.zeroInit, AssemblyEvent.assertLoggerUnset,
       AssemblyEvent.assignLogger, AssemblyEvent.callSetDefault] ∧
    (ServerConfig.defaultWith native).1.indexOf AssemblyEvent.assignLogger <
      (ServerConfig.defaultWith native).1.indexOf AssemblyEvent.callSetDefault := by
  have htrace : (ServerConfig.defaultWith native).1 =
      [AssemblyEvent.zeroInit, AssemblyEvent.assertLoggerUnset,
       AssemblyEvent.assignLogger, AssemblyEvent.callSetDefault] := by
    unfold ServerConfig.defaultWith
    simp only [ServerConfig.init, ServerConfig.from_raw, UA_ServerConfig.zeroed]
    split
    · simp_all
    · split <;> rfl
  refine ⟨htrace, ?_⟩
  rw [htrace]
  decide

/-- C8: the default assembly returns a configuration whose derived port
is 4840 and whose logger field is non-null, and whenever the native
default-population routine reports a non-good status on the
configuration it is given, the assembly panics with the source's expect
message instead of returning. -/
theorem default_port_logger_and_fatal_status :
    (∃ cfg : UA_ServerConfig,
      ServerConfig.defaultConfig.2 = Except.ok ⟨some cfg⟩ ∧
      cfg.port = 4840 ∧ cfg.logging ≠ 0) ∧
    (∀ native : UA_ServerConfig → UA_ServerConfig × Nat,
      (native configBeforeSetDefault).2 ≠ 0 →
      (ServerConfig.defaultWith native).2 =
        Except.error "should set default server config") := by
  constructor
  · exact ⟨{ logging := loggerAddr, port := 4840, subLogging := loggerAddr },
      rfl, rfl, by decide⟩
  · intro native hbad
    simp only [configBeforeSetDefault, UA_ServerConfig.zeroed] at hbad
    unfold ServerConfig.defaultWith
    simp [ServerConfig.init, ServerConfig.from_raw, UA_ServerConfig.zeroed, hbad]

/-- Witness for C8: a native routine returning the out-of-memory-style
bad status 1 makes default assembly abort with the expect message. -/
theorem default_fatal_status_witness :
    ((fun c : UA_ServerConfig => (c, 1)) configBeforeSetDefault).2 ≠ 0 ∧
    (ServerConfig.defaultWith (fun c => (c, 1))).2 =
      Except.error "should set default server config" :=
  ⟨by decide,
   default_port_logger_and_fatal_status.2 (fun c => (c, 1)) (by decide)⟩

/-!
Type descriptor lookup: `DataType::data_type_ref` (src/lib.rs,
lines 63-65).  A raw descriptor pointer is embedded as an optional
descriptor value, `none` standing for the null pointer; the body is
`unsafe { Self::data_type().as_ref() }.unwrap()`, where the pointer
method `as_ref` yields `None` exactly on null and `unwrap` panics on
`None`.
-/

/-- Abstraction of the native `UA_DataType` descriptor: the index of the
entry in the engine's descriptor table. -/
structure UA_DataType where
  typeIndex : Nat
deriving DecidableEq, Repr

/-- Rust's `Option::unwrap`: return the contained value, panic on
`None`. -/
def optionUnwrap {α : Type} : Option α → Except String α
  | some a => Except.ok a
  | none => Except.error "called Option::unwrap() on a None value"

/-- Rust's raw-pointer method `as_ref`: `None` exactly when the pointer
is null, otherwise a reference to the pointee. -/
def ptrAsRef (p : Option UA_DataType) : Option UA_DataType :=
  p

/-- `DataType::data_type_ref` (src/lib.rs, lines 63-65), parametric in
the static descriptor pointer returned by `Self::data_type()`. -/
def dataTypeRef (dataType : Option UA_DataType) : Except String UA_DataType :=
  optionUnwrap (ptrAsRef dataType)

/-- C5: data_type_ref returns the dereferenced static descriptor
whenever the descriptor pointer is non-null, and panics (the unwrap of
`None`) whenever the pointer is null. -/
theorem data_type_ref_deref_or_panic :
    (∀ d : UA_DataType, dataTypeRef (some d) = Except.ok d) ∧
    dataTypeRef none =
      Except.error "called Option::unwrap() on a None value" :=
  ⟨fun _ => rfl, rfl⟩

/-!
Reachability of container states through the safe operation sequences.
`into_raw` takes the container by value, so a container that is still in
scope (on which `as_mut` or `as_mut_ptr` can be called) was produced by
a constructor and then only ever inspected or mutated through the
exclusive view, which never clears the `Option`.
-/

/-- The concrete configuration value produced by default assembly with
the engine's modelled default-population routine. -/
def defaultConfigValue : UA_ServerConfig :=
  { logging := loggerAddr, port := 4840, subLogging := loggerAddr }

/-- Helper: whatever configuration a returning default assembly hands
back is in the Owned state. -/
theorem defaultConfig_ok_isSome (cfg : ServerConfig)
    (hcfg : ServerConfig.defaultConfig.2 = Except.ok cfg) :
    cfg.inner.isSome = true := by
  have hconc : ServerConfig.defaultConfig.2 =
      Except.ok (ServerConfig.from_raw defaultConfigValue) := rfl
  have hinj := hconc.symm.trans hcfg
  injection hinj with heq
  rw [← heq]
  rfl

/-- Containers obtainable through the safe API while still in scope:
produced by `init`, `from_raw` or a returning `Default::default`, and
possibly mutated in place through the exclusive `as_mut` view (which
rewrites the inner value but never empties the option).  `into_raw`
consumes the container by value, so no rule produces an accessible
container from its aftermath. -/
inductive Accessible : ServerConfig → Prop
  | of_init : Accessible ServerConfig.init
  | of_from_raw (v : UA_ServerConfig) : Accessible (ServerConfig.from_raw v)
  | of_default (cfg : ServerConfig) :
      ServerConfig.defaultConfig.2 = Except.ok cfg → Accessible cfg
  | of_mutate (a b : UA_ServerConfig) :
      Accessible ⟨some a⟩ → Accessible ⟨some b⟩

/-- C9: the panic branches of as_mut and as_mut_ptr are unreachable
through the safe operation sequences: every container still accessible
is in the Owned state, so both accessors succeed on it. -/
theorem as_mut_panic_unreachable (c : ServerConfig) (h : Accessible c) :
    c.inner.isSome = true ∧
    (ServerConfig.as_mut c).isOk = true ∧
    (ServerConfig.as_mut_ptr c).isOk = true := by
  have hsome : c.inner.isSome = true := by
    induction h with
    | of_init => rfl
    | of_from_raw v => rfl
    | of_default cfg hcfg => exact defaultConfig_ok_isSome cfg hcfg
    | of_mutate a b hacc ih => rfl
  refine ⟨hsome, ?_, ?_⟩
  · cases hc : c.inner with
    | none => rw [hc] at hsome; cases hsome
    | some v => simp [ServerConfig.as_mut, hc, Except.isOk, Except.toBool]
  · cases hc : c.inner with
    | none => rw [hc] at hsome; cases hsome
    | some v => simp [ServerConfig.as_mut_ptr, hc, Except.isOk, Except.toBool]

/-- Witness for C9: the freshly initialized container is accessible and
both exclusive accessors succeed on it. -/
theorem as_mut_panic_unreachable_witness :
    ServerConfig.init.inner.isSome = true ∧
    (ServerConfig.as_mut ServerConfig.init).isOk = true ∧
    (ServerConfig.as_mut_ptr ServerConfig.init).isOk = true :=
  as_mut_panic_unreachable ServerConfig.init Accessible.of_init

/-!
State transitions of the container operations, for the invariant that
only give-up-ownership and drop leave the Owned state.  `into_raw` runs
`self.0.take()` unconditionally, `Drop::drop` runs `self.0.take()` when
the value is present, and the exclusive accessors never touch the
option.
-/

/-- Operations acting on an existing container. -/
inductive ContainerOp
  | opIntoRaw
  | opAsMut
  | opAsMutPtr
  | opDrop
deriving DecidableEq, Repr

/-- The container state each operation leaves behind: `into_raw` and
drop take the value out of the option (lines 32 and 76 of
src/ua/server_config.rs), while the exclusive accessors only borrow. -/
def applyOp : ContainerOp → ServerConfig → ServerConfig
  | ContainerOp.opIntoRaw, _ => ⟨none⟩
  | ContainerOp.opAsMut, c => c
  | ContainerOp.opAsMutPtr, c => c
  | ContainerOp.opDrop, _ => ⟨none⟩

/-- C10: every construction path (init, from_raw, and a returning
default) yields an Owned container, and among the container operations
only into_raw and drop ever change the container state, so a freshly
constructed container always satisfies the holds-a-value precondition. -/
theorem construction_yields_owned :
    ServerConfig.init.inner.isSome = true ∧
    (∀ v : UA_ServerConfig,
      (ServerConfig.from_raw v).inner.isSome = true) ∧
    (∀ cfg : ServerConfig, ServerConfig.defaultConfig.2 = Except.ok cfg →
      cfg.inner.isSome = true) ∧
    (∀ c : ServerConfig, applyOp ContainerOp.opAsMut c = c ∧
      applyOp ContainerOp.opAsMutPtr c = c) ∧
    (∀ (o : ContainerOp) (c : ServerConfig), applyOp o c ≠ c →
      o = ContainerOp.opIntoRaw ∨ o = ContainerOp.opDrop) := by
  refine ⟨rfl, fun v => rfl, ?_, fun c => ⟨rfl, rfl⟩, ?_⟩
  · intro cfg hcfg
    exact defaultConfig_ok_isSome cfg hcfg
  · intro o c hne
    cases o with
    | opIntoRaw => exact Or.inl rfl
    | opDrop => exact Or.inr rfl
    | opAsMut => exact absurd rfl hne
    | opAsMutPtr => exact absurd rfl hne

/-- Witness for C10: the concrete configuration returned by default
assembly is Owned, and into_raw does change the state of an Owned
container while as_mut does not. -/
theorem construction_yields_owned_witness :
    (ServerConfig.from_raw defaultConfigValue).inner.isSome = true ∧
    applyOp ContainerOp.opAsMut ServerConfig.init = ServerConfig.init :=
  ⟨construction_yields_owned.2.2.1
    (ServerConfig.from_raw defaultConfigValue) rfl,
   (construction_yields_owned.2.2.2.1 ServerConfig.init).1⟩

/-- Witness for C2: the round trip through from_raw and into_raw at the
all-zero configuration value. -/
theorem from_raw_into_raw_roundtrip_witness :
    ServerConfig.into_raw (ServerConfig.from_raw UA_ServerConfig.zeroed) =
      Except.ok (UA_ServerConfig.zeroed, ServerConfig.mk none) ∧
    ServerConfig.dropCalls (ServerConfig.mk none) = [] :=
  from_raw_into_raw_roundtrip UA_ServerConfig.zeroed

/-- Witness for C5: the descriptor at table index 1 is dereferenced when
the pointer is non-null. -/
theorem data_type_ref_deref_or_panic_witness :
    dataTypeRef (some ⟨1⟩) = Except.ok ⟨1⟩ :=
  data_type_ref_deref_or_panic.1 ⟨1⟩

/-- Witness for C7: with the engine's own default-population routine the
assembly trace is exactly the documented step order. -/
theorem default_assembly_order_witness :
    (ServerConfig.defaultWith UA_ServerConfig_setDefault).1 =
      [AssemblyEvent.zeroInit, AssemblyEvent.assertLoggerUnset,
       AssemblyEvent.assignLogger, AssemblyEvent.callSetDefault] ∧
    (ServerConfig.defaultWith UA_ServerConfig_setDefault).1.indexOf
        AssemblyEvent.assignLogger <
      (ServerConfig.defaultWith UA_ServerConfig_setDefault).1.indexOf
        AssemblyEvent.callSetDefault :=
  default_assembly_order UA_ServerConfig_setDefault
